import Mathlib

/-!
Verification development for a multi-vendor e-commerce backend.

The TypeScript controllers are shallowly embedded as pure Lean functions
over an explicit database state (`DB`).  JavaScript numbers are modelled
as rationals (`Rat`); fallible lookups return `Option`; generated ids
(uuid defaults) and external effects (bcrypt hashes, JWTs, nodemailer)
are threaded as explicit parameters.  Prisma queries are modelled as
list operations on the tables of `DB`: `findUnique`/`findFirst` become
`List.find?`, `findMany`/`deleteMany` become `List.filter`, `update`
becomes `List.map` on the selected rows, and a thrown P2025
("record not found") surfaces as the handler's catch-all 500 response.
-/

namespace Backend

/-- JavaScript `x || d` for numbers: `0` (and only `0`, on rationals) is falsy. -/
def jsNumOr (x d : Rat) : Rat := if x = 0 then d else x

/-- JavaScript `x || d` for a nullable number (`null`, `undefined` and `0` are falsy). -/
def jsOptNumOr (x : Option Rat) (d : Rat) : Rat :=
  match x with
  | none => d
  | some v => jsNumOr v d

/-- JavaScript `s || d` for strings: the empty string is falsy. -/
def jsStrOr (s d : String) : String := if s = "" then d else s

/-- User roles, from the Prisma `Role` enum. -/
inductive Role
  | USER
  | BUYER
  | SELLER
  | ADMIN
deriving DecidableEq, Repr

/-- Product verification status, from the Prisma `ProductStatus` enum. -/
inductive ProductStatus
  | PENDING
  | APPROVED
  | REJECTED
deriving DecidableEq, Repr

/-- A row of the `User` table (fields the embedded handlers read). -/
structure User where
  id : String
  email : String
  name : String
  password : String
  role : Role
  isVerified : Bool
deriving DecidableEq, Repr

/-- A row of the `RefreshToken` table. -/
structure RefreshToken where
  id : String
  token : String
  userId : String
deriving DecidableEq, Repr

/-- A row of the `Buyer` table (`BuyerId` references `User.id`). -/
structure Buyer where
  id : String
  BuyerId : String
deriving DecidableEq, Repr

/-- A row of the `Seller` table (`sellerId` references `User.id`). -/
structure Seller where
  id : String
  sellerId : String
  storeName : String
  aadharCard : String
  panCard : String
  gstNumber : Option String
deriving DecidableEq, Repr

/-- A row of the `Product` table (fields the embedded handlers read). -/
structure Product where
  id : String
  sellerId : String
  title : String
  description : String
  price : Rat
  discount : Option Rat
  stock : Rat
  status : ProductStatus
deriving DecidableEq, Repr

/-- A row of the `CartItems` table (`cartId` references `Cart.id`,
`(cartId, productId)` is the composite unique key used by upserts). -/
structure CartItems where
  id : String
  cartId : String
  productId : String
  quantity : Rat
  price : Rat
deriving DecidableEq, Repr

/-- A row of the `Cart` table: `id` is the primary key and `userId` a
separate foreign-key column (per the `add_cart_items` migration). -/
structure Cart where
  id : String
  userId : String
  totalPrice : Rat
deriving DecidableEq, Repr

/-- An order line, created nested under its order. -/
structure OrderItem where
  productId : String
  quantity : Rat
  price : Rat
deriving DecidableEq, Repr

/-- A row of the `Order` table with its nested items. -/
structure Order where
  id : String
  userId : String
  totalAmount : Rat
  status : String
  items : List OrderItem
deriving DecidableEq, Repr

/-- A row of the `Address` table (`buyerId` stores the user id,
as written by `addBuyerAddress`). -/
structure Address where
  id : String
  buyerId : String
  fullName : String
  phoneNumber : String
  address1 : String
  pincode : String
  city : String
  state : String
  isDefault : Bool
deriving DecidableEq, Repr

/-- A row of the `Review` table. -/
structure Review where
  id : String
  productId : String
  buyerId : String
  userId : String
  sellerId : String
  rating : Rat
  review : String
deriving DecidableEq, Repr

/-- A row of the `Otp` table (`expiresAt` as an absolute timestamp). -/
structure OtpRow where
  id : String
  userId : String
  otp : String
  expiresAt : Nat
  attempts : Nat
deriving DecidableEq, Repr

/-- The database state: one list per table. -/
structure DB where
  users : List User
  refreshTokens : List RefreshToken
  buyers : List Buyer
  sellers : List Seller
  products : List Product
  carts : List Cart
  cartItems : List CartItems
  orders : List Order
  addresses : List Address
  reviews : List Review
  otps : List OtpRow
deriving DecidableEq, Repr

/-- `prisma.cart.findUnique({ where: { id } })`. -/
def findCart (db : DB) (id : String) : Option Cart :=
  db.carts.find? (fun c => c.id == id)

/-- `prisma.product.findUnique({ where: { id } })`. -/
def findProduct (db : DB) (id : String) : Option Product :=
  db.products.find? (fun p => p.id == id)

/-- The `include: { items: true }` join: all cart items with this `cartId`. -/
def cartItemsOf (db : DB) (cartId : String) : List CartItems :=
  db.cartItems.filter (fun it => it.cartId == cartId)

/-- The reduce in the cart handlers:
`items.reduce((total, item) => total + item.price * item.quantity, 0)`. -/
def cartItemsTotal (items : List CartItems) : Rat :=
  items.foldl (fun total it => total + it.price * it.quantity) 0

/-- Result of a cart-controller request: HTTP status and resulting database. -/
structure CartRes where
  status : Nat
  db : DB
deriving DecidableEq, Repr

/-- The shared tail of `addToCart` and `removeItemFromCart`: re-fetch the
cart by `id = userId`, recompute `totalPrice` from its items, and write it
back.  When the re-fetch finds nothing, `totalPrice` is undefined and the
`prisma.cart.update({ where: { id: userId } })` throws P2025, which the
catch-all maps to 500. -/
def recomputeCartTotal (db1 : DB) (userId : String) : CartRes :=
  match findCart db1 userId with
  | none => { status := 500, db := db1 }
  | some updatedCart =>
      { status := 200,
        db := { db1 with carts := db1.carts.map (fun c =>
          if c.id = userId then
            { c with totalPrice := cartItemsTotal (cartItemsOf db1 updatedCart.id) }
          else c) } }

/-- The mutation phase of `addToCart`: create the cart with its first item,
or merge/append the item into the existing cart. -/
def addToCartStep (db : DB) (title : String) (quantity price : Rat) (userId : String)
    (freshCartId freshItemId : String) : DB :=
  match findCart db userId with
  | none =>
      { db with
        carts := db.carts ++ [{ id := freshCartId, userId := userId, totalPrice := 0 }],
        cartItems := db.cartItems ++
          [{ id := freshItemId, cartId := freshCartId, productId := title,
             quantity := quantity, price := price }] }
  | some c =>
      match (cartItemsOf db c.id).filter (fun it => it.productId == title) with
      | existing0 :: _ =>
          { db with
            cartItems := db.cartItems.map (fun it =>
              if it.id = existing0.id then { it with quantity := existing0.quantity + quantity }
              else it) }
      | [] =>
          { db with
            cartItems := db.cartItems ++
              [{ id := freshItemId, cartId := c.id, productId := title,
                 quantity := quantity, price := price }] }

/-- `addToCart` (cart.controller.ts): body `{ title, quantity, price, userId }`.
`freshCartId`/`freshItemId` model the uuid defaults of `create`. -/
def addToCart (db : DB) (title : String) (quantity price : Rat) (userId : String)
    (freshCartId freshItemId : String) : CartRes :=
  recomputeCartTotal (addToCartStep db title quantity price userId freshCartId freshItemId) userId

/-- A `{ productId, quantity, price }` element of an `updateCart`/`createOrder` body. -/
structure ReqItem where
  productId : String
  quantity : Rat
  price : Rat
deriving DecidableEq, Repr

/-- One step of the `items.upsert` of `updateCart`, keyed on
`productId_cartId`; `freshId` is the uuid default of the `create` branch. -/
def upsertOne (cartItems : List CartItems) (cartId : String) (r : ReqItem)
    (freshId : String) : List CartItems :=
  if cartItems.any (fun it => it.productId == r.productId && it.cartId == cartId) then
    cartItems.map (fun it =>
      if it.productId = r.productId ∧ it.cartId = cartId then
        { it with quantity := r.quantity, price := r.price }
      else it)
  else
    cartItems ++ [{ id := freshId, cartId := cartId, productId := r.productId,
                    quantity := r.quantity, price := r.price }]

/-- The full `items.upsert` list of `updateCart`, in request order. -/
def upsertItems (cartItems : List CartItems) (cartId : String) (reqs : List ReqItem)
    (freshId : Nat → String) : List CartItems :=
  reqs.enum.foldl (fun acc nr => upsertOne acc cartId nr.2 (freshId nr.1)) cartItems

/-- The reduce of `updateCart` over the request body:
`items.reduce((total, item) => total + item.price * item.quantity, 0)`. -/
def reqItemsTotal (items : List ReqItem) : Rat :=
  items.foldl (fun total it => total + it.price * it.quantity) 0

/-- `updateCart` (cart.controller.ts): body `{ userId, items }`. -/
def updateCart (db : DB) (userId : String) (items : List ReqItem)
    (freshId : Nat → String) : CartRes :=
  match findCart db userId with
  | none => { status := 404, db := db }
  | some _ =>
      { status := 200,
        db := { db with
          cartItems := upsertItems db.cartItems userId items freshId,
          carts := db.carts.map (fun c =>
            if c.id = userId then { c with totalPrice := reqItemsTotal items } else c) } }

/-- `clearCart` (cart.controller.ts): params `{ userId }`. -/
def clearCart (db : DB) (userId : String) : CartRes :=
  match findCart db userId with
  | none => { status := 404, db := db }
  | some _ =>
      { status := 200,
        db := { db with
          cartItems := db.cartItems.filter (fun it => !(it.cartId == userId)),
          carts := db.carts.map (fun c =>
            if c.id = userId then { c with totalPrice := 0 } else c) } }

/-- `removeItemFromCart` (cart.controller.ts): params `{ userId, productId }`. -/
def removeItemFromCart (db : DB) (userId productId : String) : CartRes :=
  match db.cartItems.find? (fun it => it.cartId == userId && it.productId == productId) with
  | none => { status := 404, db := db }
  | some cartItem =>
      recomputeCartTotal
        { db with cartItems := db.cartItems.filter (fun it => !(it.id == cartItem.id)) }
        userId

/-- `deleteFromCart` (cart.controller.ts): params `{ userId, productId }`. -/
def deleteFromCart (db : DB) (userId productId : String) : CartRes :=
  match findCart db userId with
  | none => { status := 404, db := db }
  | some cart =>
      match (cartItemsOf db cart.id).find? (fun it => it.productId == productId) with
      | none => { status := 404, db := db }
      | some _ =>
          { status := 200,
            db := { db with
              cartItems := db.cartItems.filter (fun it =>
                !(it.cartId == userId && it.productId == productId)),
              carts := db.carts.map (fun c =>
                if c.id = userId then
                  { c with totalPrice := cartItemsTotal ((cartItemsOf db cart.id).filter
                      (fun it => !(it.productId == productId))) }
                else c) } }

/-- Per-item discounted price of `applyCartDiscount`, over the `include`-joined
item/product pairs: `Math.max(0.01, (price || 0) - (discount ?? 0))`. -/
def applyDiscountTotal (l : List (CartItems × Product)) : Rat :=
  l.foldl (fun sum x =>
    sum + max (1 / 100 : Rat) (jsNumOr x.2.price 0 - x.2.discount.getD 0) * x.1.quantity) 0

/-- Total of `checkoutCart` over the joined item/product pairs:
`Math.max(price - (discount || 0), 0)` summed times quantity. -/
def checkoutTotal (l : List (CartItems × Product)) : Rat :=
  l.foldl (fun sum x =>
    sum + max (x.2.price - jsOptNumOr x.2.discount 0) 0 * x.1.quantity) 0

/-- The `include: { items: { include: { product: true } } }` join; `none`
when some item's product row is missing (impossible under foreign keys). -/
def joinProducts (db : DB) : List CartItems → Option (List (CartItems × Product))
  | [] => some []
  | it :: rest =>
      match findProduct db it.productId, joinProducts db rest with
      | some p, some l => some ((it, p) :: l)
      | _, _ => none

/-- `applyCartDiscount` (cart.controller.ts): authenticated user `userId`;
note the cart lookup is `findFirst({ where: { userId } })` here. -/
def applyCartDiscount (db : DB) (userId : Option String) : CartRes :=
  match userId with
  | none => { status := 401, db := db }
  | some uid =>
      match db.carts.find? (fun c => c.userId == uid) with
      | none => { status := 404, db := db }
      | some cart =>
          match joinProducts db (cartItemsOf db cart.id) with
          | none => { status := 500, db := db }
          | some joined =>
              let totalPrice := applyDiscountTotal joined
              { status := 200,
                db := { db with carts := db.carts.map (fun c =>
                  if c.id = cart.id then { c with totalPrice := totalPrice } else c) } }

/-- The stock-validation loop of `checkoutCart`, in item order: a missing
product row throws (`nullProduct`), a shortfall returns 400 (`outOfStock`). -/
inductive StockScan
  | nullProduct
  | outOfStock
  | allOk
deriving DecidableEq, Repr

/-- `for (const item of cart.items) if (item.product.stock < item.quantity)`. -/
def scanStock (db : DB) : List CartItems → StockScan
  | [] => .allOk
  | it :: rest =>
      match findProduct db it.productId with
      | none => .nullProduct
      | some p => if p.stock < it.quantity then .outOfStock else scanStock db rest

/-- Result of `checkoutCart`: HTTP status, created order id, resulting database. -/
structure CheckoutRes where
  status : Nat
  orderId : Option String
  db : DB
deriving DecidableEq, Repr

/-- `checkoutCart` (cart.controller.ts): body `{ userid, email }`;
`freshOrderId` models the uuid default of `order.create`. -/
def checkoutCart (db : DB) (userid : String) (freshOrderId : String) : CheckoutRes :=
  match findCart db userid with
  | none => { status := 404, orderId := none, db := db }
  | some cart =>
      let items := cartItemsOf db cart.id
      if items.isEmpty then { status := 404, orderId := none, db := db }
      else
        match scanStock db items with
        | .nullProduct => { status := 500, orderId := none, db := db }
        | .outOfStock => { status := 400, orderId := none, db := db }
        | .allOk =>
            match joinProducts db items with
            | none => { status := 500, orderId := none, db := db }
            | some joined =>
                let totalPrice := checkoutTotal joined
                let order : Order :=
                  { id := freshOrderId, userId := userid, totalAmount := totalPrice,
                    status := "Pending",
                    items := joined.map (fun x =>
                      { productId := x.1.productId, quantity := x.1.quantity,
                        price := x.2.price }) }
                let db1 := { db with orders := db.orders ++ [order] }
                let db2 := items.foldl (fun d it =>
                  { d with products := d.products.map (fun p =>
                      if p.id = it.productId then { p with stock := p.stock - it.quantity }
                      else p) }) db1
                let db3 := { db2 with cartItems := db2.cartItems.filter (fun it =>
                  !(it.cartId == userid)) }
                { status := 200, orderId := some freshOrderId, db := db3 }

/-- `product.seller?.user?.email` for a product: the seller row keyed by the
product's `sellerId`, then that seller's user's email. -/
def sellerEmailOf (db : DB) (p : Product) : Option String :=
  (db.sellers.find? (fun s => s.sellerId == p.sellerId)).bind (fun s =>
    (db.users.find? (fun u => u.id == s.sellerId)).map (fun u => u.email))

/-- The `sellerEmails` grouping of `createOrder`: walk the fetched products,
skip falsy emails, and append the product id under its seller's email. -/
def groupSellerEmails (db : DB) (prods : List Product) : List (String × List String) :=
  prods.foldl (fun acc p =>
    match sellerEmailOf db p with
    | none => acc
    | some e =>
        if e = "" then acc
        else if acc.any (fun kv => kv.1 == e) then
          acc.map (fun kv => if kv.1 = e then (kv.1, kv.2 ++ [p.id]) else kv)
        else acc ++ [(e, [p.id])]) []

/-- `prisma.product.findMany({ where: { id: { in: ... } } })`, in table order. -/
def productsIn (db : DB) (ids : List String) : List Product :=
  db.products.filter (fun p => ids.contains p.id)

/-- Result of `createOrder`: status, resulting database, and the seller
notification recipients in send order. -/
structure CreateOrderRes where
  status : Nat
  db : DB
  sellerRecipients : List String
deriving DecidableEq, Repr

/-- `createOrder` (cart.controller.ts): body
`{ userId, totalAmount, status, items }`; `0`, the empty string and an empty
items array are falsy and rejected up front. -/
def createOrder (db : DB) (userId : String) (totalAmount : Rat) (status : Option String)
    (items : List ReqItem) (freshOrderId : String) : CreateOrderRes :=
  if userId = "" ∨ totalAmount = 0 ∨ items = [] then
    { status := 400, db := db, sellerRecipients := [] }
  else
    match db.users.find? (fun u => u.id == userId) with
    | none => { status := 404, db := db, sellerRecipients := [] }
    | some _ =>
        let products := productsIn db (items.map (fun i => i.productId))
        if products.isEmpty then { status := 404, db := db, sellerRecipients := [] }
        else
          let order : Order :=
            { id := freshOrderId, userId := userId, totalAmount := totalAmount,
              status := (match status with | none => "Pending" | some s => jsStrOr s "Pending"),
              items := items.map (fun i =>
                { productId := i.productId, quantity := i.quantity, price := i.price }) }
          { status := 201,
            db := { db with orders := db.orders ++ [order] },
            sellerRecipients := (groupSellerEmails db products).map Prod.fst }

/-- The outcome of `ProductSchema.partial().omit({ status: true }).safeParse`:
the optional updatable fields, with `status` stripped by the schema. -/
structure ProductPatch where
  title : Option String
  description : Option String
  price : Option Rat
  discount : Option Rat
  stock : Option Rat
  bulkUpload : Option String
deriving DecidableEq, Repr

/-- `ProductStatusEnum.safeParse` on the raw `req.body.status` string. -/
def parseProductStatus (s : String) : Option ProductStatus :=
  if s = "PENDING" then some ProductStatus.PENDING
  else if s = "APPROVED" then some ProductStatus.APPROVED
  else if s = "REJECTED" then some ProductStatus.REJECTED
  else none

/-- The authenticated JWT payload as the handlers read it. -/
structure JwtUser where
  id : String
  role : Role
deriving DecidableEq, Repr

/-- Result of a product-controller request. -/
structure ProductRes where
  status : Nat
  db : DB
deriving DecidableEq, Repr

/-- `updateProductById` (product.controller.ts).  `validId` models the uuid
format check; `parsed` is the `safeParse` outcome of the body (with `status`
omitted by the schema); `rawStatus` is the raw `req.body.status`, read only
for admins. -/
def updateProductById (db : DB) (user : JwtUser) (productId : String)
    (validId : Bool) (parsed : Option ProductPatch) (rawStatus : Option String) : ProductRes :=
  if !validId then { status := 400, db := db }
  else
    match findProduct db productId with
    | none => { status := 404, db := db }
    | some product =>
        if user.role ≠ Role.ADMIN ∧ product.sellerId ≠ user.id then
          { status := 403, db := db }
        else
          match parsed with
          | none => { status := 400, db := db }
          | some patch =>
              -- `if (user.role === "ADMIN" && req.body.status)` then validate it
              let statusField : Except Unit (Option ProductStatus) :=
                if user.role = Role.ADMIN then
                  match rawStatus with
                  | none => .ok none
                  | some s =>
                      if s = "" then .ok none
                      else
                        match parseProductStatus s with
                        | some st => .ok (some st)
                        | none => .error ()
                else .ok none
              match statusField with
              | .error _ => { status := 400, db := db }
              | .ok stOpt =>
                  { status := 200,
                    db := { db with products := db.products.map (fun p =>
                      if p.id = productId then
                        { p with
                          title := patch.title.getD p.title,
                          description := patch.description.getD p.description,
                          price := patch.price.getD p.price,
                          discount := (match patch.discount with
                            | none => p.discount
                            | some d => some d),
                          stock := patch.stock.getD p.stock,
                          status := stOpt.getD p.status }
                      else p) } }

/-- `verifyProductById` (product.controller.ts): Bearer-token auth then an
admin-only single-product approval. -/
def verifyProductById (db : DB) (hasAuthHeader : Bool) (tokenUser : Option User)
    (id : String) : ProductRes :=
  if !hasAuthHeader then { status := 401, db := db }
  else
    match tokenUser with
    | none => { status := 401, db := db }
    | some user =>
        if user.role ≠ Role.ADMIN then { status := 403, db := db }
        else
          match findProduct db id with
          | none => { status := 404, db := db }
          | some product =>
              if product.status ≠ ProductStatus.PENDING then { status := 400, db := db }
              else
                { status := 200,
                  db := { db with products := db.products.map (fun p =>
                    if p.id = id then { p with status := ProductStatus.APPROVED } else p) } }

/-- `verifyAllProducts` (product.controller.ts): admin-only bulk approval of
every PENDING product. -/
def verifyAllProducts (db : DB) (hasAuthHeader : Bool) (tokenUser : Option User) : ProductRes :=
  if !hasAuthHeader then { status := 401, db := db }
  else
    match tokenUser with
    | none => { status := 401, db := db }
    | some user =>
        if user.role ≠ Role.ADMIN then { status := 403, db := db }
        else
          let pendingProducts := db.products.filter (fun p => p.status == ProductStatus.PENDING)
          if pendingProducts.isEmpty then { status := 400, db := db }
          else
            { status := 200,
              db := { db with products := db.products.map (fun p =>
                if p.status = ProductStatus.PENDING then { p with status := ProductStatus.APPROVED }
                else p) } }

/-- The parsed `reviewSchema` body fields the handler destructures. -/
structure ReviewBody where
  productId : String
  rating : Rat
  review : String
deriving DecidableEq, Repr

/-- `addReviewsByBuyer` (product.controller.ts): `freshReviewId` models the
uuid default of `review.create`. -/
def addReviewsByBuyer (db : DB) (parsed : Option ReviewBody) (hasAuthHeader : Bool)
    (tokenUser : Option User) (freshReviewId : String) : ProductRes :=
  match parsed with
  | none => { status := 400, db := db }
  | some body =>
      if !hasAuthHeader then { status := 401, db := db }
      else
        match tokenUser with
        | none => { status := 401, db := db }
        | some user =>
            match db.buyers.find? (fun b => b.BuyerId == user.id) with
            | none => { status := 404, db := db }
            | some buyer =>
                match findProduct db body.productId with
                | none => { status := 404, db := db }
                | some product =>
                    match db.reviews.find? (fun r =>
                        r.productId == body.productId && r.buyerId == buyer.id) with
                    | some _ => { status := 400, db := db }
                    | none =>
                        { status := 201,
                          db := { db with reviews := db.reviews ++
                            [{ id := freshReviewId, productId := body.productId,
                               buyerId := buyer.id, userId := user.id,
                               sellerId := product.sellerId, rating := body.rating,
                               review := body.review }] } }

/-- The parsed `signUpInput` body fields `registerUser` destructures. -/
structure SignUpData where
  email : String
  password : String
  name : String
deriving DecidableEq, Repr

/-- Result of `registerUser`: status, the refresh-token cookie if one was
set, and the resulting database. -/
structure RegisterRes where
  status : Nat
  cookie : Option String
  db : DB
deriving DecidableEq, Repr

/-- `registerUser` (auth.controller.ts): `parsed` is the `safeParse` outcome;
`hashed` models `bcrypt.hash(password, 10)`; `freshUserId`/`freshTokenRowId`
the uuid defaults; `refreshToken` the generated JWT. -/
def registerUser (db : DB) (parsed : Option SignUpData) (hashed : String)
    (freshUserId freshTokenRowId refreshToken : String) : RegisterRes :=
  match parsed with
  | none => { status := 400, cookie := none, db := db }
  | some body =>
      match db.users.find? (fun u => u.email == body.email) with
      | some _ => { status := 400, cookie := none, db := db }
      | none =>
          let user : User :=
            { id := freshUserId, email := body.email, name := body.name,
              password := hashed, role := Role.USER, isVerified := false }
          { status := 201, cookie := some refreshToken,
            db := { db with
              users := db.users ++ [user],
              refreshTokens := db.refreshTokens ++
                [{ id := freshTokenRowId, token := refreshToken, userId := user.id }] } }

/-- The body of `addBuyerAddress`/`updateBuyerAddress` (order.controller.ts). -/
structure AddressBody where
  fullName : String
  phoneNumber : String
  address1 : String
  pincode : String
  city : String
  state : String
  isDefault : Bool
deriving DecidableEq, Repr

/-- Result of an address request. -/
structure AddressRes where
  status : Nat
  db : DB
deriving DecidableEq, Repr

/-- `addBuyerAddress` (order.controller.ts): clears the buyer's other
defaults when the new address is default; `freshId` is the uuid default. -/
def addBuyerAddress (db : DB) (userId : String) (body : AddressBody)
    (freshId : String) : AddressRes :=
  match db.buyers.find? (fun b => b.BuyerId == userId) with
  | none => { status := 403, db := db }
  | some _ =>
      let cleared :=
        if body.isDefault then
          db.addresses.map (fun a =>
            if a.buyerId = userId then { a with isDefault := false } else a)
        else db.addresses
      { status := 200,
        db := { db with addresses := cleared ++
          [{ id := freshId, buyerId := userId, fullName := body.fullName,
             phoneNumber := body.phoneNumber, address1 := body.address1,
             pincode := body.pincode, city := body.city, state := body.state,
             isDefault := body.isDefault }] } }

/-- `updateBuyerAddress` (order.controller.ts). -/
def updateBuyerAddress (db : DB) (userId addressId : String) (body : AddressBody) : AddressRes :=
  match db.addresses.find? (fun a => a.id == addressId && a.buyerId == userId) with
  | none => { status := 404, db := db }
  | some _ =>
      let cleared :=
        if body.isDefault then
          db.addresses.map (fun a =>
            if a.buyerId = userId then { a with isDefault := false } else a)
        else db.addresses
      { status := 200,
        db := { db with addresses := cleared.map (fun a =>
          if a.id = addressId then
            { a with
              fullName := body.fullName, phoneNumber := body.phoneNumber,
              address1 := body.address1, pincode := body.pincode, city := body.city,
              state := body.state, isDefault := body.isDefault }
          else a) } }

/-- `deleteBuyerAddress` (order.controller.ts): when the deleted address is
the default, promote any other address of the buyer first. -/
def deleteBuyerAddress (db : DB) (userId addressId : String) : AddressRes :=
  match db.addresses.find? (fun a => a.id == addressId && a.buyerId == userId) with
  | none => { status := 404, db := db }
  | some address =>
      let promoted :=
        if address.isDefault then
          match db.addresses.find? (fun a => a.buyerId == userId && !(a.id == addressId)) with
          | some another =>
              db.addresses.map (fun a =>
                if a.id = another.id then { a with isDefault := true } else a)
          | none => db.addresses
        else db.addresses
      { status := 200,
        db := { db with addresses := promoted.filter (fun a => !(a.id == addressId)) } }

/-- The number of default addresses a buyer has in a state: the quantity
the one-default-address invariant bounds by one. -/
def defaultCount (db : DB) (bid : String) : Nat :=
  db.addresses.countP (fun a => a.buyerId == bid && a.isDefault)

/-- `findFirst({ where: { userId, otp }, orderBy: { expiresAt: "desc" } })`:
the matching row with the greatest `expiresAt` (first such on ties). -/
def findOtpDesc (otps : List OtpRow) (userId otpVal : String) : Option OtpRow :=
  (otps.filter (fun o => o.userId == userId && o.otp == otpVal)).foldl
    (fun best o =>
      match best with
      | none => some o
      | some b => if b.expiresAt < o.expiresAt then some o else best) none

/-- The required seller fields of `verifyOtpAndAssignRole`'s body. -/
structure SellerDetails where
  storeName : String
  aadharCard : String
  panCard : String
  gstNumber : String
deriving DecidableEq, Repr

/-- Result of `verifyOtpAndAssignRole`. -/
structure OtpRes where
  status : Nat
  db : DB
deriving DecidableEq, Repr

/-- `verifyOtpAndAssignRole` (product.controller.ts): looks up the freshest
OTP row for `(user, otp)`, rejects missing/expired rows, deletes the row on
too many attempts or on success, and assigns the BUYER or SELLER role inside
a transaction.  `freshRowId` is the uuid default of the created
buyer/seller row. -/
def verifyOtpAndAssignRole (db : DB) (now : Nat) (hasToken : Bool)
    (tokenUser : Option User) (otpVal : String) (role : String)
    (details : Option SellerDetails) (freshRowId : String) : OtpRes :=
  if !hasToken then { status := 401, db := db }
  else
    match tokenUser with
    | none => { status := 401, db := db }
    | some user =>
        if ¬(role = "BUYER" ∨ role = "SELLER") then { status := 400, db := db }
        else
          match findOtpDesc db.otps user.id otpVal with
          | none => { status := 400, db := db }
          | some storedOtp =>
              if now > storedOtp.expiresAt then { status := 400, db := db }
              else if storedOtp.attempts ≥ 5 then
                { status := 429,
                  db := { db with otps := db.otps.filter (fun o => !(o.id == storedOtp.id)) } }
              else if role = "SELLER" then
                match details with
                | none => { status := 400, db := db }
                | some d =>
                    if d.storeName = "" ∨ d.aadharCard = "" ∨ d.panCard = "" ∨ d.gstNumber = "" then
                      { status := 400, db := db }
                    else
                      { status := 200,
                        db := { db with
                          users := db.users.map (fun u =>
                            if u.id = user.id then { u with role := Role.SELLER } else u),
                          sellers := db.sellers ++
                            [{ id := freshRowId, sellerId := user.id,
                               storeName := d.storeName, aadharCard := d.aadharCard,
                               panCard := d.panCard, gstNumber := some d.gstNumber }],
                          otps := db.otps.filter (fun o => !(o.id == storedOtp.id)) } }
              else
                { status := 200,
                  db := { db with
                    users := db.users.map (fun u =>
                      if u.id = user.id then { u with role := Role.BUYER, isVerified := true }
                      else u),
                    buyers := db.buyers ++ [{ id := freshRowId, BuyerId := user.id }],
                    otps := db.otps.filter (fun o => !(o.id == storedOtp.id)) } }

/-- `sendOtp` (product.controller.ts): rate-limits to one OTP per five
minutes past the freshest row's expiry, then stores a fresh six-digit code
expiring in ten minutes (times in milliseconds since the epoch). -/
def sendOtp (db : DB) (now : Nat) (user : User) (otpVal : String)
    (freshId : String) : OtpRes :=
  if user.role = Role.SELLER then { status := 403, db := db }
  else
    let recentOtp := (db.otps.filter (fun o => o.userId == user.id)).foldl
      (fun best o =>
        match best with
        | none => some o
        | some b => if b.expiresAt < o.expiresAt then some o else best) none
    match recentOtp with
    | some r =>
        if now < r.expiresAt + 5 * 60 * 1000 then { status := 429, db := db }
        else
          { status := 200,
            db := { db with otps := db.otps ++
              [{ id := freshId, userId := user.id, otp := otpVal,
                 expiresAt := now + 10 * 60 * 1000, attempts := 0 }] } }
    | none =>
        { status := 200,
          db := { db with otps := db.otps ++
            [{ id := freshId, userId := user.id, otp := otpVal,
               expiresAt := now + 10 * 60 * 1000, attempts := 0 }] } }

/-- First-occurrence deduplication, the order in which
`Object.entries(sellerEmails)` yields its keys. -/
def dedupKeepFirst (l : List String) : List String :=
  l.foldl (fun acc e => if acc.any (fun x => x == e) then acc else acc ++ [e]) []

/-- The (truthy) seller emails of a product list, in list order; the
reference stream that `groupSellerEmails` groups. -/
def sellerEmailsOf (db : DB) (prods : List Product) : List String :=
  prods.filterMap (fun p =>
    match sellerEmailOf db p with
    | none => none
    | some e => if e = "" then none else some e)

/-- The distinct seller ids among the products referenced by an order's
items, in first-occurrence order. -/
def distinctSellerIds (db : DB) (items : List ReqItem) : List String :=
  dedupKeepFirst ((productsIn db (items.map (fun i => i.productId))).map (fun p => p.sellerId))

unseal Rat.add Rat.mul Rat.sub Rat.inv

/-! ## Concrete states -/

/-- The empty database. -/
def emptyDB : DB := ⟨[], [], [], [], [], [], [], [], [], [], []⟩

/-- A state with a cart `"u1"` holding one item of product `"p1"` whose
stock (1) is below the requested quantity (2). -/
def dbStock : DB :=
  { emptyDB with
    products := [⟨"p1", "s1", "Shirt", "d", 5, none, 1, ProductStatus.PENDING⟩],
    carts := [⟨"u1", "u1", 10⟩],
    cartItems := [⟨"i1", "u1", "p1", 2, 5⟩] }

/-- A state with a cart `"u1"` holding one item of product `"p1"`
(price 3, quantity 2) and a stale stored total. -/
def dbCartW : DB :=
  { emptyDB with
    products := [⟨"p1", "s1", "Shirt", "d", 3, none, 10, ProductStatus.APPROVED⟩,
                 ⟨"p2", "s2", "Hat", "d", 3, none, 10, ProductStatus.APPROVED⟩],
    carts := [⟨"u1", "u1", 99⟩],
    cartItems := [⟨"i1", "u1", "p1", 2, 3⟩] }

/-- A state with two in-stock products belonging to two distinct sellers
(`uA`, `uB`, with distinct user emails) and a cart `"u1"` holding one item
of each. -/
def dbOrder : DB :=
  { emptyDB with
    users := [⟨"u1", "u@x.com", "U", "h", Role.BUYER, true⟩,
              ⟨"uA", "a@s.com", "A", "h", Role.SELLER, true⟩,
              ⟨"uB", "b@s.com", "B", "h", Role.SELLER, true⟩],
    sellers := [⟨"sr1", "uA", "StoreA", "111111111111", "ABCDE12345", none⟩,
                ⟨"sr2", "uB", "StoreB", "222222222222", "FGHIJ67890", none⟩],
    products := [⟨"p1", "uA", "Shirt", "d", 5, none, 5, ProductStatus.APPROVED⟩,
                 ⟨"p2", "uB", "Hat", "d", 7, none, 5, ProductStatus.APPROVED⟩],
    carts := [⟨"u1", "u1", 0⟩],
    cartItems := [⟨"i1", "u1", "p1", 1, 5⟩, ⟨"i2", "u1", "p2", 1, 7⟩] }

/-- A state with a buyer `"u1"` who already reviewed product `"p1"`. -/
def dbReview : DB :=
  { emptyDB with
    users := [⟨"u1", "u@x.com", "U", "h", Role.BUYER, true⟩],
    buyers := [⟨"b1", "u1"⟩],
    products := [⟨"p1", "uA", "Shirt", "d", 5, none, 5, ProductStatus.APPROVED⟩],
    reviews := [⟨"r1", "p1", "b1", "u1", "uA", 4, "ok"⟩] }

/-- A state with a buyer `"u1"` holding two addresses, `"a1"` being the
default. -/
def dbAddr : DB :=
  { emptyDB with
    buyers := [⟨"b1", "u1"⟩],
    addresses := [⟨"a1", "u1", "N", "1", "A", "P", "C", "S", true⟩,
                  ⟨"a2", "u1", "N", "1", "B", "P", "C", "S", false⟩] }

/-- A state with a user `"u1"` holding one unexpired OTP row. -/
def dbOtp : DB :=
  { emptyDB with
    users := [⟨"u1", "u@x.com", "U", "h", Role.USER, false⟩],
    otps := [⟨"t1", "u1", "123456", 1000, 0⟩] }

/-! ## General lemmas -/

theorem findCart_some_id (db : DB) (uid : String) (c : Cart)
    (h : findCart db uid = some c) : c.id = uid := by
  have := List.find?_some h
  simpa using this

theorem jsNumOr_zero (x : Rat) : jsNumOr x 0 = x := by
  unfold jsNumOr
  split <;> simp_all

theorem jsOptNumOr_zero (o : Option Rat) : jsOptNumOr o 0 = o.getD 0 := by
  cases o <;> simp [jsOptNumOr, jsNumOr_zero]

theorem two_le_length_of_mem_ne {α : Type} {l : List α} {a b : α}
    (ha : a ∈ l) (hb : b ∈ l) (hne : a ≠ b) : 2 ≤ l.length := by
  obtain ⟨s, t, rfl⟩ := List.append_of_mem ha
  have hb' : b ∈ s ++ t := by
    rcases List.mem_append.1 hb with h | h
    · exact List.mem_append.2 (Or.inl h)
    · rcases List.mem_cons.1 h with h | h
      · exact absurd h.symm hne
      · exact List.mem_append.2 (Or.inr h)
  have : 0 < (s ++ t).length := List.length_pos_of_mem hb'
  simp only [List.length_append, List.length_cons] at *
  omega

theorem filter_eq_singleton_of_countP_le_one {α : Type} {l : List α} {p : α → Bool} {o : α}
    (hcount : l.countP p ≤ 1) (ho : o ∈ l) (hpo : p o = true) :
    l.filter p = [o] := by
  have hmem : o ∈ l.filter p := List.mem_filter.2 ⟨ho, hpo⟩
  have hlen : (l.filter p).length = 1 := by
    have h1 : 0 < (l.filter p).length := List.length_pos_of_mem hmem
    have h2 : (l.filter p).length = l.countP p := (List.countP_eq_length_filter p l).symm
    omega
  obtain ⟨a, ha⟩ := List.length_eq_one.1 hlen
  rw [ha] at hmem
  simp only [List.mem_singleton] at hmem
  rw [ha, hmem]

/-! ## The stored cart total after each mutation -/

theorem recomputeCartTotal_inv (db1 : DB) (userId : String)
    (h : (recomputeCartTotal db1 userId).status = 200) :
    ∀ c ∈ (recomputeCartTotal db1 userId).db.carts, c.id = userId →
      c.totalPrice = cartItemsTotal (cartItemsOf (recomputeCartTotal db1 userId).db c.id) := by
  cases hf : findCart db1 userId with
  | none => unfold recomputeCartTotal at h; rw [hf] at h; simp at h
  | some u =>
      have hu : u.id = userId := findCart_some_id db1 userId u hf
      simp only [recomputeCartTotal, hf]
      intro c hc hcid
      simp only [List.mem_map] at hc
      obtain ⟨c0, hc0, rfl⟩ := hc
      by_cases h0 : c0.id = userId
      · simp [h0, cartItemsOf, hu]
      · simp only [h0, if_false] at hcid

theorem addToCart_total (db : DB) (title : String) (quantity price : Rat)
    (userId freshCartId freshItemId : String)
    (h : (addToCart db title quantity price userId freshCartId freshItemId).status = 200) :
    ∀ c ∈ (addToCart db title quantity price userId freshCartId freshItemId).db.carts,
      c.id = userId →
      c.totalPrice = cartItemsTotal
        (cartItemsOf (addToCart db title quantity price userId freshCartId freshItemId).db c.id) :=
  recomputeCartTotal_inv (addToCartStep db title quantity price userId freshCartId freshItemId)
    userId h

theorem removeItemFromCart_total (db : DB) (userId productId : String)
    (h : (removeItemFromCart db userId productId).status = 200) :
    ∀ c ∈ (removeItemFromCart db userId productId).db.carts, c.id = userId →
      c.totalPrice = cartItemsTotal
        (cartItemsOf (removeItemFromCart db userId productId).db c.id) := by
  cases hf : db.cartItems.find? (fun it => it.cartId == userId && it.productId == productId) with
  | none => unfold removeItemFromCart at h; rw [hf] at h; simp at h
  | some ci =>
      unfold removeItemFromCart at h ⊢
      rw [hf] at h ⊢
      exact recomputeCartTotal_inv _ _ h

theorem updateCart_total (db : DB) (userId : String) (items : List ReqItem)
    (freshId : Nat → String)
    (h : (updateCart db userId items freshId).status = 200) :
    ∀ c ∈ (updateCart db userId items freshId).db.carts, c.id = userId →
      c.totalPrice = reqItemsTotal items := by
  cases hf : findCart db userId with
  | none => unfold updateCart at h; rw [hf] at h; simp at h
  | some u =>
      simp only [updateCart, hf]
      intro c hc hcid
      simp only [List.mem_map] at hc
      obtain ⟨c0, hc0, rfl⟩ := hc
      by_cases h0 : c0.id = userId
      · simp [h0]
      · simp only [h0, if_false] at hcid

theorem filter_remove_comm (l : List CartItems) (userId productId : String) :
    (l.filter (fun it => !(it.cartId == userId && it.productId == productId))).filter
      (fun it => it.cartId == userId) =
    (l.filter (fun it => it.cartId == userId)).filter
      (fun it => !(it.productId == productId)) := by
  rw [List.filter_filter, List.filter_filter]
  apply List.filter_congr
  intro it _
  cases h1 : it.cartId == userId <;> cases h2 : it.productId == productId <;> simp [h1, h2]

theorem deleteFromCart_total (db : DB) (userId productId : String)
    (h : (deleteFromCart db userId productId).status = 200) :
    ∀ c ∈ (deleteFromCart db userId productId).db.carts, c.id = userId →
      c.totalPrice = cartItemsTotal
        (cartItemsOf (deleteFromCart db userId productId).db c.id) := by
  cases hf : findCart db userId with
  | none => unfold deleteFromCart at h; rw [hf] at h; simp at h
  | some cart =>
      have hcartid : cart.id = userId := findCart_some_id db userId cart hf
      cases hit : (cartItemsOf db cart.id).find? (fun it => it.productId == productId) with
      | none =>
          unfold deleteFromCart at h
          simp only [hf, hit] at h
          exact absurd h (by decide)
      | some it0 =>
          simp only [deleteFromCart, hf, hit]
          intro c hc hcid
          simp only [List.mem_map] at hc
          obtain ⟨c0, hc0, rfl⟩ := hc
          by_cases h0 : c0.id = userId
          · simp only [h0, if_true, cartItemsOf, hcartid]
            rw [filter_remove_comm]
          · simp only [h0, if_false] at hcid

theorem clearCart_total (db : DB) (userId : String)
    (h : (clearCart db userId).status = 200) :
    ∀ c ∈ (clearCart db userId).db.carts, c.id = userId →
      c.totalPrice = cartItemsTotal (cartItemsOf (clearCart db userId).db c.id) := by
  cases hf : findCart db userId with
  | none => unfold clearCart at h; rw [hf] at h; simp at h
  | some u =>
      simp only [clearCart, hf]
      intro c hc hcid
      simp only [List.mem_map] at hc
      obtain ⟨c0, hc0, rfl⟩ := hc
      by_cases h0 : c0.id = userId
      · simp only [h0, if_true, cartItemsOf, List.filter_filter]
        have hnil : db.cartItems.filter
            (fun a => a.cartId == userId && !(a.cartId == userId)) = [] := by
          rw [List.filter_eq_nil_iff]
          intro a _
          cases hca : a.cartId == userId <;> simp [hca]
        rw [hnil]
        rfl
      · simp only [h0, if_false] at hcid

/-! ## Behaviour of the stock-validation loop -/

theorem scanStock_eq_outOfStock (db : DB) (items : List CartItems)
    (hfk : ∀ it ∈ items, (findProduct db it.productId).isSome)
    (hbad : ∃ it ∈ items, ∃ p, findProduct db it.productId = some p ∧ p.stock < it.quantity) :
    scanStock db items = StockScan.outOfStock := by
  induction items with
  | nil => simp at hbad
  | cons it rest ih =>
      obtain ⟨it0, hmem0, p0, hp0, hlt0⟩ := hbad
      obtain ⟨p, hp⟩ := Option.isSome_iff_exists.1 (hfk it (List.mem_cons_self it rest))
      rw [scanStock, hp]
      by_cases hstock : p.stock < it.quantity
      · simp [hstock]
      · have hit0rest : it0 ∈ rest := by
          rcases List.mem_cons.1 hmem0 with rfl | h
          · rw [hp0] at hp
            cases hp
            exact absurd hlt0 hstock
          · exact h
        simp only [hstock, if_false]
        exact ih (fun x hx => hfk x (List.mem_cons_of_mem it hx))
          ⟨it0, hit0rest, p0, hp0, hlt0⟩

/-! ## Order creation facts -/

theorem joinProducts_fst (db : DB) (items : List CartItems) (joined : List (CartItems × Product))
    (h : joinProducts db items = some joined) : joined.map Prod.fst = items := by
  induction items generalizing joined with
  | nil =>
      simp only [joinProducts] at h
      cases h
      rfl
  | cons it rest ih =>
      simp only [joinProducts] at h
      cases hf : findProduct db it.productId with
      | none => rw [hf] at h; simp at h
      | some p =>
          rw [hf] at h
          cases hj : joinProducts db rest with
          | none => rw [hj] at h; simp at h
          | some l =>
              rw [hj] at h
              cases h
              simp [ih l hj]

theorem stockDecrement_orders (items : List CartItems) (db1 : DB) :
    (items.foldl (fun d it =>
      { d with products := d.products.map (fun p =>
          if p.id = it.productId then { p with stock := p.stock - it.quantity } else p) })
      db1).orders = db1.orders := by
  induction items generalizing db1 with
  | nil => rfl
  | cons it rest ih =>
      simp only [List.foldl_cons]
      rw [ih]

theorem any_fst_map (acc : List (String × List String)) (e : String) :
    (acc.map Prod.fst).any (fun x => x == e) = acc.any (fun kv => kv.1 == e) := by
  induction acc with
  | nil => rfl
  | cons a t ih => simp [List.any_cons, ih]

theorem groupStep_fst (acc : List (String × List String)) (e pid : String) :
    ((if acc.any (fun kv => kv.1 == e) then
        acc.map (fun kv => if kv.1 = e then (kv.1, kv.2 ++ [pid]) else kv)
      else acc ++ [(e, [pid])]).map Prod.fst) =
    (if (acc.map Prod.fst).any (fun x => x == e) then acc.map Prod.fst
     else acc.map Prod.fst ++ [e]) := by
  rw [any_fst_map]
  by_cases hc : acc.any (fun kv => kv.1 == e)
  · simp only [hc, if_true, List.map_map]
    apply List.map_congr_left
    intro kv _
    by_cases hk : kv.1 = e <;> simp [hk]
  · simp [hc]

theorem groupSellerEmails_keys (db : DB) (prods : List Product) :
    (groupSellerEmails db prods).map Prod.fst = dedupKeepFirst (sellerEmailsOf db prods) := by
  unfold groupSellerEmails dedupKeepFirst
  suffices hgen : ∀ acc : List (String × List String),
      (prods.foldl (fun acc p =>
        match sellerEmailOf db p with
        | none => acc
        | some e =>
            if e = "" then acc
            else if acc.any (fun kv => kv.1 == e) then
              acc.map (fun kv => if kv.1 = e then (kv.1, kv.2 ++ [p.id]) else kv)
            else acc ++ [(e, [p.id])]) acc).map Prod.fst =
      (sellerEmailsOf db prods).foldl
        (fun acc e => if acc.any (fun x => x == e) then acc else acc ++ [e])
        (acc.map Prod.fst) by
    exact hgen []
  induction prods with
  | nil => intro acc; rfl
  | cons p rest ih =>
      intro acc
      simp only [List.foldl_cons]
      cases he : sellerEmailOf db p with
      | none =>
          have hemails : sellerEmailsOf db (p :: rest) = sellerEmailsOf db rest := by
            simp [sellerEmailsOf, List.filterMap_cons, he]
          rw [hemails]
          exact ih acc
      | some e =>
          by_cases he' : e = ""
          · have hemails : sellerEmailsOf db (p :: rest) = sellerEmailsOf db rest := by
              simp [sellerEmailsOf, List.filterMap_cons, he, he']
            rw [hemails]
            simp only [he', if_true]
            exact ih acc
          · have hemails : sellerEmailsOf db (p :: rest) = e :: sellerEmailsOf db rest := by
              simp [sellerEmailsOf, List.filterMap_cons, he, he']
            rw [hemails]
            simp only [List.foldl_cons, he', if_false]
            rw [ih, groupStep_fst]

/-! ## Non-admin requests and product status -/

theorem updateProductById_nonAdmin_status (db : DB) (user : JwtUser) (productId : String)
    (validId : Bool) (parsed : Option ProductPatch) (rawStatus : Option String)
    (hrole : user.role ≠ Role.ADMIN) :
    (updateProductById db user productId validId parsed rawStatus).db.products.map
      (fun p => p.status) = db.products.map (fun p => p.status) := by
  unfold updateProductById
  cases validId with
  | false => simp
  | true =>
      cases hf : findProduct db productId with
      | none => simp
      | some product =>
          by_cases hsell : product.sellerId = user.id
          · cases parsed with
            | none => simp [hsell]
            | some patch =>
                have hcond : ¬(user.role ≠ Role.ADMIN ∧ product.sellerId ≠ user.id) :=
                  fun hAnd => hAnd.2 hsell
                simp only [Bool.not_true, Bool.false_eq_true, if_false, hcond, if_neg,
                  hrole, ite_false]
                simp [hcond, hrole, List.map_map]
                intro p _
                by_cases hp : p.id = productId <;> simp [hp]
          · have hcond : user.role ≠ Role.ADMIN ∧ product.sellerId ≠ user.id :=
              ⟨hrole, hsell⟩
            simp [hcond]

/-! ## Review uniqueness -/

theorem addReviewsByBuyer_duplicate_400 (db : DB) (body : ReviewBody) (user : User)
    (buyer : Buyer) (product : Product) (fid : String)
    (hb : db.buyers.find? (fun b => b.BuyerId == user.id) = some buyer)
    (hp : findProduct db body.productId = some product)
    (hex : ∃ r ∈ db.reviews, r.productId = body.productId ∧ r.buyerId = buyer.id) :
    addReviewsByBuyer db (some body) true (some user) fid = { status := 400, db := db } := by
  have hsome : (db.reviews.find? (fun r =>
      r.productId == body.productId && r.buyerId == buyer.id)).isSome := by
    rw [List.find?_isSome]
    obtain ⟨r, hr, h1, h2⟩ := hex
    exact ⟨r, hr, by simp [h1, h2]⟩
  obtain ⟨r0, hr0⟩ := Option.isSome_iff_exists.1 hsome
  simp [addReviewsByBuyer, hb, hp, hr0]

theorem addReviewsByBuyer_count_preserved (db : DB) (parsed : Option ReviewBody)
    (hasAuth : Bool) (tokenUser : Option User) (fid bid pid : String)
    (h : db.reviews.countP (fun r => r.buyerId == bid && r.productId == pid) ≤ 1) :
    (addReviewsByBuyer db parsed hasAuth tokenUser fid).db.reviews.countP
      (fun r => r.buyerId == bid && r.productId == pid) ≤ 1 := by
  cases parsed with
  | none => exact h
  | some body =>
      cases hasAuth with
      | false => exact h
      | true =>
          cases tokenUser with
          | none => exact h
          | some user =>
              cases hb : db.buyers.find? (fun b => b.BuyerId == user.id) with
              | none => simp only [addReviewsByBuyer, hb]; exact h
              | some buyer =>
                  cases hp : findProduct db body.productId with
                  | none => simp only [addReviewsByBuyer, hb, hp]; exact h
                  | some product =>
                      cases hr : db.reviews.find? (fun r =>
                          r.productId == body.productId && r.buyerId == buyer.id) with
                      | some r0 => simp only [addReviewsByBuyer, hb, hp, hr]; exact h
                      | none =>
                          simp only [addReviewsByBuyer, hb, hp, hr]
                          show (db.reviews ++
                            ([{ id := fid, productId := body.productId, buyerId := buyer.id,
                                userId := user.id, sellerId := product.sellerId,
                                rating := body.rating, review := body.review }] :
                              List Review)).countP
                              (fun r => r.buyerId == bid && r.productId == pid) ≤ 1
                          rw [List.countP_append]
                          by_cases hmatch : buyer.id = bid ∧ body.productId = pid
                          · obtain ⟨hb1, hp1⟩ := hmatch
                            subst hb1
                            subst hp1
                            have h0 : db.reviews.countP (fun r =>
                                r.buyerId == buyer.id && r.productId == body.productId) = 0 := by
                              rw [List.countP_eq_zero]
                              intro r hrmem
                              have hnone := List.find?_eq_none.1 hr r hrmem
                              simp only [Bool.and_eq_true, beq_iff_eq] at hnone ⊢
                              intro hc
                              exact hnone ⟨hc.2, hc.1⟩
                            rw [h0, List.countP_cons]
                            simp only [List.countP_nil]
                            split <;> omega
                          · have h1 : List.countP (fun r => r.buyerId == bid && r.productId == pid)
                                [({ id := fid, productId := body.productId, buyerId := buyer.id,
                                    userId := user.id, sellerId := product.sellerId,
                                    rating := body.rating, review := body.review } : Review)] = 0 := by
                              simp only [List.countP_cons, List.countP_nil]
                              by_cases h2 : buyer.id = bid <;> by_cases h3 : body.productId = pid <;>
                                simp [h2, h3]
                              exact absurd ⟨h2, h3⟩ hmatch
                            omega

/-! ## OTP rows are consumed on success -/

theorem foldl_pickMax_mem (l : List OtpRow) (acc : Option OtpRow) (o : OtpRow)
    (h : l.foldl (fun best x =>
      match best with
      | none => some x
      | some b => if b.expiresAt < x.expiresAt then some x else best) acc = some o) :
    acc = some o ∨ o ∈ l := by
  induction l generalizing acc with
  | nil => exact Or.inl h
  | cons x rest ih =>
      simp only [List.foldl_cons] at h
      rcases ih _ h with hacc | hmem
      · cases acc with
        | none =>
            cases hacc
            exact Or.inr (List.mem_cons_self _ _)
        | some b =>
            change (if b.expiresAt < x.expiresAt then some x else some b) = some o at hacc
            by_cases hlt : b.expiresAt < x.expiresAt
            · rw [if_pos hlt] at hacc
              cases hacc
              exact Or.inr (List.mem_cons_self _ _)
            · rw [if_neg hlt] at hacc
              exact Or.inl hacc
      · exact Or.inr (List.mem_cons_of_mem x hmem)

theorem findOtpDesc_mem (otps : List OtpRow) (uid v : String) (o : OtpRow)
    (h : findOtpDesc otps uid v = some o) :
    o ∈ otps.filter (fun x => x.userId == uid && x.otp == v) := by
  unfold findOtpDesc at h
  rcases foldl_pickMax_mem _ _ _ h with hacc | hmem
  · simp at hacc
  · exact hmem

theorem otp_rows_cleared (db : DB) (o : OtpRow) (uid v : String)
    (huniq : db.otps.countP (fun x => x.userId == uid && x.otp == v) ≤ 1)
    (hmem : o ∈ db.otps.filter (fun x => x.userId == uid && x.otp == v)) :
    ∀ x ∈ db.otps.filter (fun x => !(x.id == o.id)), ¬(x.userId = uid ∧ x.otp = v) := by
  intro x hx hxprop
  obtain ⟨hxmem, hxid⟩ := List.mem_filter.1 hx
  obtain ⟨homem, hoprop⟩ := List.mem_filter.1 hmem
  have hfilter := filter_eq_singleton_of_countP_le_one huniq homem hoprop
  have hxp : (fun x => x.userId == uid && x.otp == v) x = true := by
    simp [hxprop.1, hxprop.2]
  have : x ∈ db.otps.filter (fun x => x.userId == uid && x.otp == v) :=
    List.mem_filter.2 ⟨hxmem, hxp⟩
  rw [hfilter] at this
  simp only [List.mem_singleton] at this
  subst this
  simp at hxid

theorem verifyOtp_no_row_400 (db1 : DB) (now2 : Nat) (u2 : User) (otpVal role2 : String)
    (details2 : Option SellerDetails) (fid2 : String)
    (hempty : ∀ x ∈ db1.otps, ¬(x.userId = u2.id ∧ x.otp = otpVal)) :
    verifyOtpAndAssignRole db1 now2 true (some u2) otpVal role2 details2 fid2 =
      { status := 400, db := db1 } := by
  by_cases hrole : role2 = "BUYER" ∨ role2 = "SELLER"
  · have hnone : findOtpDesc db1.otps u2.id otpVal = none := by
      unfold findOtpDesc
      have hnil : db1.otps.filter (fun o => o.userId == u2.id && o.otp == otpVal) = [] := by
        rw [List.filter_eq_nil_iff]
        intro a ha
        have hne := hempty a ha
        simp only [Bool.and_eq_true, beq_iff_eq, not_and]
        intro h1 h2
        exact hne ⟨h1, h2⟩
      rw [hnil]
      rfl
    simp [verifyOtpAndAssignRole, hrole, hnone]
  · simp [verifyOtpAndAssignRole, hrole]

/-! ## Default-address counting -/

theorem countP_clear (l : List Address) (uid bid : String) :
    (l.map (fun a => if a.buyerId = uid then { a with isDefault := false } else a)).countP
      (fun a => a.buyerId == bid && a.isDefault) =
    if uid = bid then 0 else l.countP (fun a => a.buyerId == bid && a.isDefault) := by
  induction l with
  | nil => by_cases h : uid = bid <;> simp [h]
  | cons a t ih =>
      simp only [List.map_cons, List.countP_cons, ih]
      by_cases hub : uid = bid
      · subst hub
        by_cases hab : a.buyerId = uid <;> simp [hab]
      · by_cases hab : a.buyerId = uid <;> simp [hab, hub]

theorem countP_id_le_one (l : List Address) (aid : String)
    (h : (l.map (fun a => a.id)).Nodup) :
    l.countP (fun a => a.id == aid) ≤ 1 := by
  induction l with
  | nil => simp
  | cons a t ih =>
      simp only [List.map_cons, List.nodup_cons] at h
      rw [List.countP_cons]
      by_cases ha : a.id = aid
      · have h0 : t.countP (fun x => x.id == aid) = 0 := by
          rw [List.countP_eq_zero]
          intro x hx
          simp only [beq_iff_eq]
          intro hxe
          exact h.1 (by
            rw [ha, ← hxe]
            exact List.mem_map_of_mem (fun a => a.id) hx)
        rw [h0]
        simp [ha]
      · have := ih h.2
        simp only [beq_iff_eq, ha]
        simp [ha]
        omega

theorem countP_filter_le (l : List Address) (p q : Address → Bool) :
    (l.filter q).countP p ≤ l.countP p := by
  induction l with
  | nil => simp
  | cons a t ih =>
      cases hq : q a with
      | true => simp [List.filter_cons, hq, List.countP_cons]; omega
      | false => simp [List.filter_cons, hq, List.countP_cons]; omega

theorem addBuyerAddress_default_le_one (db : DB) (userId : String) (body : AddressBody)
    (freshId : String) (hinv : ∀ b, defaultCount db b ≤ 1) (bid : String) :
    defaultCount (addBuyerAddress db userId body freshId).db bid ≤ 1 := by
  have hbid := hinv bid
  unfold defaultCount at hbid ⊢
  cases hb : db.buyers.find? (fun b => b.BuyerId == userId) with
  | none =>
      simp only [addBuyerAddress, hb]
      exact hbid
  | some buyer =>
      cases hdef : body.isDefault with
      | true =>
          simp only [addBuyerAddress, hb, hdef, if_true]
          rw [List.countP_append, countP_clear]
          by_cases hub : userId = bid
          · simp [hub, List.countP_cons]
          · simp [hub, List.countP_cons]
            omega
      | false =>
          simp only [addBuyerAddress, hb, hdef]
          rw [List.countP_append]
          simp [List.countP_cons]
          omega

theorem updateBuyerAddress_default_le_one (db : DB) (userId addressId : String)
    (body : AddressBody) (hids : (db.addresses.map (fun a => a.id)).Nodup)
    (hinv : ∀ b, defaultCount db b ≤ 1) (bid : String) :
    defaultCount (updateBuyerAddress db userId addressId body).db bid ≤ 1 := by
  have hbid := hinv bid
  unfold defaultCount at hbid ⊢
  cases hf : db.addresses.find? (fun a => a.id == addressId && a.buyerId == userId) with
  | none =>
      simp only [updateBuyerAddress, hf]
      exact hbid
  | some address =>
      have haddr := List.find?_some hf
      have hamem := List.mem_of_find?_eq_some hf
      obtain ⟨haid, hauid⟩ : address.id = addressId ∧ address.buyerId = userId := by
        simpa using haddr
      cases hdef : body.isDefault with
      | true =>
          simp only [updateBuyerAddress, hf, hdef, if_true]
          rw [List.countP_map, List.countP_map]
          by_cases hub : userId = bid
          · subst hub
            refine le_trans (List.countP_mono_left ?_) (countP_id_le_one _ addressId hids)
            intro a ha hpa
            simp only [Function.comp] at hpa
            by_cases ha' : a.id = addressId
            · simp [ha']
            · exfalso
              by_cases hbuy : a.buyerId = userId <;> simp [hbuy, ha'] at hpa
          · refine le_trans (List.countP_mono_left ?_) hbid
            intro a ha hpa
            simp only [Function.comp] at hpa
            by_cases ha' : a.id = addressId
            · exfalso
              have haa : a = address :=
                List.inj_on_of_nodup_map hids ha hamem (by rw [ha', haid])
              rw [haa] at hpa
              by_cases hbuy : address.buyerId = userId <;>
                simp [hbuy, haid, hauid, hub] at hpa
            · by_cases hbuy : a.buyerId = userId
              · exfalso; simp [hbuy, ha'] at hpa
              · simpa [hbuy, ha'] using hpa
      | false =>
          simp only [updateBuyerAddress, hf, hdef]
          rw [List.countP_map]
          refine le_trans (List.countP_mono_left ?_) hbid
          intro a ha hpa
          simp only [Function.comp] at hpa
          by_cases ha' : a.id = addressId
          · exfalso; simp [ha'] at hpa
          · simpa [ha'] using hpa

theorem deleteBuyerAddress_default_le_one (db : DB) (userId addressId : String)
    (hids : (db.addresses.map (fun a => a.id)).Nodup)
    (hinv : ∀ b, defaultCount db b ≤ 1) (bid : String) :
    defaultCount (deleteBuyerAddress db userId addressId).db bid ≤ 1 := by
  have hbid := hinv bid
  unfold defaultCount at hbid ⊢
  cases hf : db.addresses.find? (fun a => a.id == addressId && a.buyerId == userId) with
  | none =>
      simp only [deleteBuyerAddress, hf]
      exact hbid
  | some address =>
      have hamem := List.mem_of_find?_eq_some hf
      obtain ⟨haid, hauid⟩ : address.id = addressId ∧ address.buyerId = userId := by
        simpa using List.find?_some hf
      cases hdef : address.isDefault with
      | false =>
          simp only [deleteBuyerAddress, hf, hdef]
          exact le_trans (countP_filter_le _ _ _) hbid
      | true =>
          cases ha2 : db.addresses.find?
              (fun a => a.buyerId == userId && !(a.id == addressId)) with
          | none =>
              simp only [deleteBuyerAddress, hf, hdef, ha2]
              exact le_trans (countP_filter_le _ _ _) hbid
          | some a2 =>
              have ha2mem := List.mem_of_find?_eq_some ha2
              obtain ⟨ha2uid, ha2id⟩ : a2.buyerId = userId ∧ ¬(a2.id = addressId) := by
                simpa using List.find?_some ha2
              simp only [deleteBuyerAddress, hf, hdef, ha2, eq_self_iff_true, ite_true]
              have hidsfinal : ((((db.addresses.map (fun a =>
                  if a.id = a2.id then { a with isDefault := true } else a)).filter
                    (fun a => !(a.id == addressId))).map (fun a => a.id))).Nodup := by
                have heq : (db.addresses.map (fun a =>
                    if a.id = a2.id then { a with isDefault := true } else a)).map
                    (fun a => a.id) = db.addresses.map (fun a => a.id) := by
                  rw [List.map_map]
                  apply List.map_congr_left
                  intro a _
                  by_cases h : a.id = a2.id <;> simp [h]
                have hsub := (List.filter_sublist (l := db.addresses.map (fun a =>
                    if a.id = a2.id then { a with isDefault := true } else a))
                    (p := fun a => !(a.id == addressId))).map (fun a => a.id)
                rw [heq] at hsub
                exact hids.sublist hsub
              by_cases hub : userId = bid
              · subst hub
                have huniq := hinv userId
                unfold defaultCount at huniq
                have hsingle : db.addresses.filter
                    (fun a => a.buyerId == userId && a.isDefault) = [address] :=
                  filter_eq_singleton_of_countP_le_one huniq hamem (by simp [hauid, hdef])
                refine le_trans (List.countP_mono_left ?_)
                  (countP_id_le_one _ a2.id hidsfinal)
                intro e he hpe
                obtain ⟨hemem, heq⟩ := List.mem_filter.1 he
                obtain ⟨a, ha, rfl⟩ := List.mem_map.1 hemem
                by_cases haa2 : a.id = a2.id
                · simp [haa2]
                · exfalso
                  simp only [haa2, if_false] at hpe heq
                  have hain : a ∈ db.addresses.filter
                      (fun x => x.buyerId == userId && x.isDefault) :=
                    List.mem_filter.2 ⟨ha, hpe⟩
                  rw [hsingle] at hain
                  simp only [List.mem_singleton] at hain
                  subst hain
                  simp [haid] at heq
              · refine le_trans (countP_filter_le _ _ _) ?_
                rw [List.countP_map]
                refine le_trans (List.countP_mono_left ?_) hbid
                intro a ha hpa
                simp only [Function.comp] at hpa
                by_cases haa2 : a.id = a2.id
                · exfalso
                  have haa : a = a2 := List.inj_on_of_nodup_map hids ha ha2mem haa2
                  rw [haa] at hpa
                  simp [ha2uid, hub] at hpa
                · simpa [haa2] using hpa

theorem defaultCount_le_total (db : DB) (bid : String) :
    defaultCount db bid ≤ db.addresses.countP (fun a => a.isDefault) := by
  unfold defaultCount
  apply List.countP_mono_left
  intro a _ h
  simp only [Bool.and_eq_true] at h
  exact h.2

theorem deleteBuyerAddress_promotes (db : DB) (userId addressId : String)
    (address a2 : Address)
    (hf : db.addresses.find? (fun a => a.id == addressId && a.buyerId == userId) = some address)
    (hdef : address.isDefault = true)
    (ha2 : db.addresses.find? (fun a => a.buyerId == userId && !(a.id == addressId)) = some a2) :
    ∃ e ∈ (deleteBuyerAddress db userId addressId).db.addresses,
      e.buyerId = userId ∧ e.isDefault = true := by
  have ha2mem := List.mem_of_find?_eq_some ha2
  obtain ⟨ha2uid, ha2id⟩ : a2.buyerId = userId ∧ ¬(a2.id = addressId) := by
    simpa using List.find?_some ha2
  simp only [deleteBuyerAddress, hf, hdef, ha2, eq_self_iff_true, ite_true]
  refine ⟨{ a2 with isDefault := true }, ?_, ha2uid, rfl⟩
  refine List.mem_filter.2 ⟨?_, by simp [ha2id]⟩
  have himg : (fun a => if a.id = a2.id then { a with isDefault := true } else a) a2 =
      { a2 with isDefault := true } := by simp
  rw [← himg]
  exact List.mem_map_of_mem _ ha2mem

/-! ## Claim theorems -/

/-- C1: a `checkoutCart` request whose cart contains an item with
insufficient product stock responds 400 and leaves the database exactly as
it was: no order is created, no stock is decremented, and the cart and its
items are untouched.  (The hypotheses say the cart exists and every cart
item's product row resolves, as the foreign keys guarantee.) -/
theorem checkoutCart_insufficient_stock (db : DB) (userid freshOrderId : String) (cart : Cart)
    (hc : findCart db userid = some cart)
    (hfk : ∀ it ∈ cartItemsOf db cart.id, (findProduct db it.productId).isSome)
    (hbad : ∃ it ∈ cartItemsOf db cart.id, ∃ p,
      findProduct db it.productId = some p ∧ p.stock < it.quantity) :
    checkoutCart db userid freshOrderId = { status := 400, orderId := none, db := db } := by
  have hscan := scanStock_eq_outOfStock db _ hfk hbad
  have hne : (cartItemsOf db cart.id).isEmpty = false := by
    obtain ⟨it, hmem, _⟩ := hbad
    rcases h : cartItemsOf db cart.id with _ | _
    · rw [h] at hmem; simp at hmem
    · rfl
  simp [checkoutCart, hc, hne, hscan]

/-- C3 (corrected): after a successful `addToCart`, `removeItemFromCart`,
`deleteFromCart` or `clearCart`, the stored `totalPrice` of the cart with
id `userId` equals the sum of `price × quantity` over the items then in the
cart; after a successful `updateCart` it instead equals that sum over the
request body's items, which can differ from the cart's own items because the
upsert leaves unmentioned items in place. -/
theorem cart_totalPrice_invariant (db : DB) (userId : String) :
    (∀ title quantity price freshCartId freshItemId,
      (addToCart db title quantity price userId freshCartId freshItemId).status = 200 →
      ∀ c ∈ (addToCart db title quantity price userId freshCartId freshItemId).db.carts,
        c.id = userId →
        c.totalPrice = cartItemsTotal
          (cartItemsOf (addToCart db title quantity price userId freshCartId freshItemId).db c.id)) ∧
    (∀ items freshId,
      (updateCart db userId items freshId).status = 200 →
      ∀ c ∈ (updateCart db userId items freshId).db.carts, c.id = userId →
        c.totalPrice = reqItemsTotal items) ∧
    (∀ productId,
      (removeItemFromCart db userId productId).status = 200 →
      ∀ c ∈ (removeItemFromCart db userId productId).db.carts, c.id = userId →
        c.totalPrice = cartItemsTotal
          (cartItemsOf (removeItemFromCart db userId productId).db c.id)) ∧
    (∀ productId,
      (deleteFromCart db userId productId).status = 200 →
      ∀ c ∈ (deleteFromCart db userId productId).db.carts, c.id = userId →
        c.totalPrice = cartItemsTotal
          (cartItemsOf (deleteFromCart db userId productId).db c.id)) ∧
    ((clearCart db userId).status = 200 →
      ∀ c ∈ (clearCart db userId).db.carts, c.id = userId →
        c.totalPrice = cartItemsTotal (cartItemsOf (clearCart db userId).db c.id)) :=
  ⟨fun t q p f1 f2 h => addToCart_total db t q p userId f1 f2 h,
   fun items f h => updateCart_total db userId items f h,
   fun pid h => removeItemFromCart_total db userId pid h,
   fun pid h => deleteFromCart_total db userId pid h,
   fun h => clearCart_total db userId h⟩

/-- C3 counterexample: on a cart holding item `p1` (price 3, quantity 2),
a successful `updateCart` whose body mentions only a new item `p2`
(price 3, quantity 2) stores `totalPrice = 6` while the cart then contains
both items, whose line totals sum to 12. -/
theorem updateCart_totalPrice_counterexample :
    (updateCart dbCartW "u1" [⟨"p2", 2, 3⟩] (fun _ => "n0")).status = 200 ∧
    ∃ c ∈ (updateCart dbCartW "u1" [⟨"p2", 2, 3⟩] (fun _ => "n0")).db.carts,
      c.id = "u1" ∧
      c.totalPrice ≠ cartItemsTotal
        (cartItemsOf (updateCart dbCartW "u1" [⟨"p2", 2, 3⟩] (fun _ => "n0")).db c.id) := by
  decide

/-- C3 witness: each of the five mutations run on a concrete cart, with the
stored total matching the respective sum. -/
theorem cart_totalPrice_invariant_witness :
    ((addToCart dbCartW "p1" 1 3 "u1" "c9" "i9").status = 200 ∧
      ∀ c ∈ (addToCart dbCartW "p1" 1 3 "u1" "c9" "i9").db.carts, c.id = "u1" →
        c.totalPrice = cartItemsTotal
          (cartItemsOf (addToCart dbCartW "p1" 1 3 "u1" "c9" "i9").db c.id)) ∧
    ((updateCart dbCartW "u1" [⟨"p1", 4, 3⟩] (fun _ => "n1")).status = 200 ∧
      ∀ c ∈ (updateCart dbCartW "u1" [⟨"p1", 4, 3⟩] (fun _ => "n1")).db.carts, c.id = "u1" →
        c.totalPrice = reqItemsTotal [⟨"p1", 4, 3⟩]) ∧
    ((removeItemFromCart dbCartW "u1" "p1").status = 200 ∧
      ∀ c ∈ (removeItemFromCart dbCartW "u1" "p1").db.carts, c.id = "u1" →
        c.totalPrice = cartItemsTotal
          (cartItemsOf (removeItemFromCart dbCartW "u1" "p1").db c.id)) ∧
    ((deleteFromCart dbCartW "u1" "p1").status = 200 ∧
      ∀ c ∈ (deleteFromCart dbCartW "u1" "p1").db.carts, c.id = "u1" →
        c.totalPrice = cartItemsTotal
          (cartItemsOf (deleteFromCart dbCartW "u1" "p1").db c.id)) ∧
    ((clearCart dbCartW "u1").status = 200 ∧
      ∀ c ∈ (clearCart dbCartW "u1").db.carts, c.id = "u1" →
        c.totalPrice = cartItemsTotal (cartItemsOf (clearCart dbCartW "u1").db c.id)) :=
  ⟨⟨by decide, (cart_totalPrice_invariant dbCartW "u1").1 "p1" 1 3 "c9" "i9" (by decide)⟩,
   ⟨by decide, (cart_totalPrice_invariant dbCartW "u1").2.1 [⟨"p1", 4, 3⟩] (fun _ => "n1")
      (by decide)⟩,
   ⟨by decide, (cart_totalPrice_invariant dbCartW "u1").2.2.1 "p1" (by decide)⟩,
   ⟨by decide, (cart_totalPrice_invariant dbCartW "u1").2.2.2.1 "p1" (by decide)⟩,
   ⟨by decide, (cart_totalPrice_invariant dbCartW "u1").2.2.2.2 (by decide)⟩⟩

/-- C6: each buyer has at most one default address, and `addBuyerAddress`,
`updateBuyerAddress` and `deleteBuyerAddress` preserve this (under unique
address ids): adding or updating with `isDefault` clears the buyer's other
defaults first, and deleting the default promotes another address when one
exists. -/
theorem buyer_default_address_invariant (db : DB)
    (hids : (db.addresses.map (fun a => a.id)).Nodup)
    (hinv : ∀ b, defaultCount db b ≤ 1) :
    (∀ userId body freshId bid,
      defaultCount (addBuyerAddress db userId body freshId).db bid ≤ 1) ∧
    (∀ userId addressId body bid,
      defaultCount (updateBuyerAddress db userId addressId body).db bid ≤ 1) ∧
    (∀ userId addressId bid,
      defaultCount (deleteBuyerAddress db userId addressId).db bid ≤ 1) ∧
    (∀ userId addressId address a2,
      db.addresses.find? (fun a => a.id == addressId && a.buyerId == userId) = some address →
      address.isDefault = true →
      db.addresses.find? (fun a => a.buyerId == userId && !(a.id == addressId)) = some a2 →
      ∃ e ∈ (deleteBuyerAddress db userId addressId).db.addresses,
        e.buyerId = userId ∧ e.isDefault = true) :=
  ⟨fun userId body freshId bid =>
      addBuyerAddress_default_le_one db userId body freshId hinv bid,
   fun userId addressId body bid =>
      updateBuyerAddress_default_le_one db userId addressId body hids hinv bid,
   fun userId addressId bid =>
      deleteBuyerAddress_default_le_one db userId addressId hids hinv bid,
   fun userId addressId address a2 hf hdef ha2 =>
      deleteBuyerAddress_promotes db userId addressId address a2 hf hdef ha2⟩

/-- C6 witness: on a buyer with a default address `a1` and another address
`a2`, each operation keeps at most one default, and deleting `a1` leaves a
default address for the buyer. -/
theorem buyer_default_address_invariant_witness :
    defaultCount (addBuyerAddress dbAddr "u1"
      ⟨"N", "1", "A", "P", "C", "S", true⟩ "a3").db "u1" ≤ 1 ∧
    defaultCount (updateBuyerAddress dbAddr "u1" "a2"
      ⟨"N", "1", "B", "P", "C", "S", true⟩).db "u1" ≤ 1 ∧
    defaultCount (deleteBuyerAddress dbAddr "u1" "a1").db "u1" ≤ 1 ∧
    ∃ e ∈ (deleteBuyerAddress dbAddr "u1" "a1").db.addresses,
      e.buyerId = "u1" ∧ e.isDefault = true := by
  have hids : (dbAddr.addresses.map (fun a => a.id)).Nodup := by decide
  have hinv : ∀ b, defaultCount dbAddr b ≤ 1 := fun b =>
    le_trans (defaultCount_le_total dbAddr b) (by decide)
  exact ⟨(buyer_default_address_invariant dbAddr hids hinv).1 "u1"
      ⟨"N", "1", "A", "P", "C", "S", true⟩ "a3" "u1",
    (buyer_default_address_invariant dbAddr hids hinv).2.1 "u1" "a2"
      ⟨"N", "1", "B", "P", "C", "S", true⟩ "u1",
    (buyer_default_address_invariant dbAddr hids hinv).2.2.1 "u1" "a1" "u1",
    (buyer_default_address_invariant dbAddr hids hinv).2.2.2 "u1" "a1"
      ⟨"a1", "u1", "N", "1", "A", "P", "C", "S", true⟩
      ⟨"a2", "u1", "N", "1", "B", "P", "C", "S", false⟩
      (by decide) (by decide) (by decide)⟩

/-- C9: an OTP is one-time.  After a successful `verifyOtpAndAssignRole`
the stored OTP row for that user and value is gone (assuming the row was
unique, as a freshly generated code is), so a second call presenting the
same value for the same user is rejected with 400 and changes nothing. -/
theorem otp_one_time (db : DB) (now : Nat) (u : User) (otpVal role : String)
    (details : Option SellerDetails) (freshRowId : String)
    (huniq : db.otps.countP (fun x => x.userId == u.id && x.otp == otpVal) ≤ 1)
    (h200 : (verifyOtpAndAssignRole db now true (some u) otpVal role details
      freshRowId).status = 200) :
    (∀ x ∈ (verifyOtpAndAssignRole db now true (some u) otpVal role details
        freshRowId).db.otps, ¬(x.userId = u.id ∧ x.otp = otpVal)) ∧
    (∀ now2 u2 role2 details2 fid2, u2.id = u.id →
      verifyOtpAndAssignRole
          (verifyOtpAndAssignRole db now true (some u) otpVal role details freshRowId).db
          now2 true (some u2) otpVal role2 details2 fid2 =
        { status := 400,
          db := (verifyOtpAndAssignRole db now true (some u) otpVal role details
            freshRowId).db }) := by
  have key : ∃ o, o ∈ db.otps.filter (fun x => x.userId == u.id && x.otp == otpVal) ∧
      (verifyOtpAndAssignRole db now true (some u) otpVal role details freshRowId).db.otps =
        db.otps.filter (fun x => !(x.id == o.id)) := by
    by_cases hsell : role = "SELLER"
    · cases hfind : findOtpDesc db.otps u.id otpVal with
      | none => exfalso; simp [verifyOtpAndAssignRole, hsell, hfind] at h200
      | some o =>
          have hmem := findOtpDesc_mem db.otps u.id otpVal o hfind
          by_cases hexp : now > o.expiresAt
          · exfalso; simp [verifyOtpAndAssignRole, hsell, hfind, hexp] at h200
          · by_cases hatt : o.attempts ≥ 5
            · exfalso; simp [verifyOtpAndAssignRole, hsell, hfind, hexp, hatt] at h200
            · cases details with
              | none =>
                  exfalso
                  simp [verifyOtpAndAssignRole, hsell, hfind, hexp, hatt] at h200
              | some d =>
                  by_cases hreq : d.storeName = "" ∨ d.aadharCard = "" ∨ d.panCard = "" ∨
                      d.gstNumber = ""
                  · exfalso
                    simp [verifyOtpAndAssignRole, hsell, hfind, hexp, hatt, hreq] at h200
                  · exact ⟨o, hmem, by
                      simp [verifyOtpAndAssignRole, hsell, hfind, hexp, hatt, hreq]⟩
    · by_cases hb : role = "BUYER"
      · cases hfind : findOtpDesc db.otps u.id otpVal with
        | none => exfalso; simp [verifyOtpAndAssignRole, hb, hfind] at h200
        | some o =>
            have hmem := findOtpDesc_mem db.otps u.id otpVal o hfind
            by_cases hexp : now > o.expiresAt
            · exfalso; simp [verifyOtpAndAssignRole, hb, hfind, hexp] at h200
            · by_cases hatt : o.attempts ≥ 5
              · exfalso; simp [verifyOtpAndAssignRole, hb, hfind, hexp, hatt] at h200
              · exact ⟨o, hmem, by
                  simp [verifyOtpAndAssignRole, hb, hsell, hfind, hexp, hatt]⟩
      · exfalso; simp [verifyOtpAndAssignRole, hb, hsell] at h200
  obtain ⟨o, hmem, hotps⟩ := key
  have hcleared : ∀ x ∈ (verifyOtpAndAssignRole db now true (some u) otpVal role details
      freshRowId).db.otps, ¬(x.userId = u.id ∧ x.otp = otpVal) := by
    rw [hotps]
    exact otp_rows_cleared db o u.id otpVal huniq hmem
  refine ⟨hcleared, fun now2 u2 role2 details2 fid2 hu2 => ?_⟩
  apply verifyOtp_no_row_400
  intro x hx
  rw [hu2]
  exact hcleared x hx

/-- C9 witness: a concrete OTP is accepted once (assigning BUYER) and the
same code is rejected with 400 on a second attempt, with no further state
change. -/
theorem otp_one_time_witness :
    dbOtp.otps.countP (fun x => x.userId == "u1" && x.otp == "123456") ≤ 1 ∧
    (verifyOtpAndAssignRole dbOtp 500 true
      (some ⟨"u1", "u@x.com", "U", "h", Role.USER, false⟩) "123456" "BUYER" none "b1").status =
      200 ∧
    verifyOtpAndAssignRole
        (verifyOtpAndAssignRole dbOtp 500 true
          (some ⟨"u1", "u@x.com", "U", "h", Role.USER, false⟩) "123456" "BUYER" none "b1").db
        600 true (some ⟨"u1", "u@x.com", "U", "h", Role.BUYER, true⟩) "123456" "BUYER" none
        "b2" =
      { status := 400,
        db := (verifyOtpAndAssignRole dbOtp 500 true
          (some ⟨"u1", "u@x.com", "U", "h", Role.USER, false⟩) "123456" "BUYER" none
          "b1").db } :=
  ⟨by decide, by decide,
   (otp_one_time dbOtp 500 ⟨"u1", "u@x.com", "U", "h", Role.USER, false⟩ "123456" "BUYER"
      none "b1" (by decide) (by decide)).2 600
      ⟨"u1", "u@x.com", "U", "h", Role.BUYER, true⟩ "BUYER" none "b2" rfl⟩

/-- C7: at most one review per buyer per product: when the requesting
buyer already reviewed the product, `addReviewsByBuyer` responds 400 with
the state unchanged, and every call preserves the at-most-one count for
every buyer/product pair. -/
theorem addReviewsByBuyer_unique (db : DB) :
    (∀ body user buyer product fid,
      db.buyers.find? (fun b => b.BuyerId == user.id) = some buyer →
      findProduct db body.productId = some product →
      (∃ r ∈ db.reviews, r.productId = body.productId ∧ r.buyerId = buyer.id) →
      addReviewsByBuyer db (some body) true (some user) fid =
        { status := 400, db := db }) ∧
    (∀ parsed hasAuth tokenUser fid bid pid,
      db.reviews.countP (fun r => r.buyerId == bid && r.productId == pid) ≤ 1 →
      (addReviewsByBuyer db parsed hasAuth tokenUser fid).db.reviews.countP
        (fun r => r.buyerId == bid && r.productId == pid) ≤ 1) :=
  ⟨fun body user buyer product fid hb hp hex =>
      addReviewsByBuyer_duplicate_400 db body user buyer product fid hb hp hex,
   fun parsed hasAuth tokenUser fid bid pid h =>
      addReviewsByBuyer_count_preserved db parsed hasAuth tokenUser fid bid pid h⟩

/-- C7 witness: a buyer who already reviewed `"p1"` gets 400 and the
review count for that pair stays at one. -/
theorem addReviewsByBuyer_unique_witness :
    (addReviewsByBuyer dbReview (some ⟨"p1", 5, "again"⟩) true
        (some ⟨"u1", "u@x.com", "U", "h", Role.BUYER, true⟩) "r2" =
      { status := 400, db := dbReview }) ∧
    (addReviewsByBuyer dbReview (some ⟨"p1", 5, "again"⟩) true
        (some ⟨"u1", "u@x.com", "U", "h", Role.BUYER, true⟩) "r2").db.reviews.countP
      (fun r => r.buyerId == "b1" && r.productId == "p1") ≤ 1 :=
  ⟨(addReviewsByBuyer_unique dbReview).1 ⟨"p1", 5, "again"⟩
      ⟨"u1", "u@x.com", "U", "h", Role.BUYER, true⟩ ⟨"b1", "u1"⟩
      ⟨"p1", "uA", "Shirt", "d", 5, none, 5, ProductStatus.APPROVED⟩ "r2"
      (by decide) (by decide)
      ⟨⟨"r1", "p1", "b1", "u1", "uA", 4, "ok"⟩, by decide, by decide, by decide⟩,
   (addReviewsByBuyer_unique dbReview).2 (some ⟨"p1", 5, "again"⟩) true
      (some ⟨"u1", "u@x.com", "U", "h", Role.BUYER, true⟩) "r2" "b1" "p1" (by decide)⟩

/-- C5: a product's verification status is never changed by a request from
an authenticated non-admin: `updateProductById` ignores any supplied status
field (the schema omits it and only admins read the raw field), and
`verifyProductById` / `verifyAllProducts` answer 403 without touching any
product. -/
theorem nonAdmin_cannot_change_status (db : DB) (ju : JwtUser) (tu : User)
    (hju : ju.role ≠ Role.ADMIN) (htu : tu.role ≠ Role.ADMIN) :
    (∀ productId validId parsed rawStatus,
      (updateProductById db ju productId validId parsed rawStatus).db.products.map
        (fun p => p.status) = db.products.map (fun p => p.status)) ∧
    (∀ id, verifyProductById db true (some tu) id = { status := 403, db := db }) ∧
    verifyAllProducts db true (some tu) = { status := 403, db := db } := by
  refine ⟨fun productId validId parsed rawStatus =>
      updateProductById_nonAdmin_status db ju productId validId parsed rawStatus hju,
    fun id => ?_, ?_⟩
  · simp [verifyProductById, htu]
  · simp [verifyAllProducts, htu]

/-- C5 witness: a concrete seller calling each of the three endpoints
leaves every product status unchanged and gets 403 from the verify
endpoints. -/
theorem nonAdmin_cannot_change_status_witness :
    ((updateProductById dbOrder ⟨"uA", Role.SELLER⟩ "p1" true
        (some ⟨some "New", none, none, none, none, none⟩)
        (some "APPROVED")).db.products.map (fun p => p.status) =
      dbOrder.products.map (fun p => p.status)) ∧
    verifyProductById dbOrder true (some ⟨"uA", "a@s.com", "A", "h", Role.SELLER, true⟩) "p1" =
      { status := 403, db := dbOrder } ∧
    verifyAllProducts dbOrder true (some ⟨"uA", "a@s.com", "A", "h", Role.SELLER, true⟩) =
      { status := 403, db := dbOrder } :=
  ⟨(nonAdmin_cannot_change_status dbOrder ⟨"uA", Role.SELLER⟩
      ⟨"uA", "a@s.com", "A", "h", Role.SELLER, true⟩ (by decide) (by decide)).1 "p1" true
      (some ⟨some "New", none, none, none, none, none⟩) (some "APPROVED"),
   (nonAdmin_cannot_change_status dbOrder ⟨"uA", Role.SELLER⟩
      ⟨"uA", "a@s.com", "A", "h", Role.SELLER, true⟩ (by decide) (by decide)).2.1 "p1",
   (nonAdmin_cannot_change_status dbOrder ⟨"uA", Role.SELLER⟩
      ⟨"uA", "a@s.com", "A", "h", Role.SELLER, true⟩ (by decide) (by decide)).2.2⟩

/-- C2 (corrected): placing an order creates exactly one order containing
all the purchased items, regardless of how many distinct sellers they
belong to; the per-seller fan-out applies only to the seller notification
emails of `createOrder`, which go to one recipient per distinct (truthy)
seller email among the ordered products. -/
theorem order_placement_single_order (db : DB) :
    (∀ userid freshOrderId cart, findCart db userid = some cart →
      (checkoutCart db userid freshOrderId).status = 200 →
      ∃ o : Order, (checkoutCart db userid freshOrderId).db.orders = db.orders ++ [o] ∧
        o.items.map (fun i => i.productId) =
          (cartItemsOf db cart.id).map (fun it => it.productId) ∧
        o.items.map (fun i => i.quantity) =
          (cartItemsOf db cart.id).map (fun it => it.quantity)) ∧
    (∀ userId totalAmount status items freshOrderId,
      (createOrder db userId totalAmount status items freshOrderId).status = 201 →
      (createOrder db userId totalAmount status items freshOrderId).db.orders =
        db.orders ++
          [⟨freshOrderId, userId, totalAmount,
            (match status with | none => "Pending" | some s => jsStrOr s "Pending"),
            items.map (fun i => ⟨i.productId, i.quantity, i.price⟩)⟩] ∧
      (createOrder db userId totalAmount status items freshOrderId).sellerRecipients =
        dedupKeepFirst (sellerEmailsOf db
          (productsIn db (items.map (fun i => i.productId))))) := by
  constructor
  · intro userid freshOrderId cart hc h200
    cases hemp : (cartItemsOf db cart.id).isEmpty with
    | true => exfalso; simp [checkoutCart, hc, hemp] at h200
    | false =>
        cases hscan : scanStock db (cartItemsOf db cart.id) with
        | nullProduct => exfalso; simp [checkoutCart, hc, hemp, hscan] at h200
        | outOfStock => exfalso; simp [checkoutCart, hc, hemp, hscan] at h200
        | allOk =>
            cases hjoin : joinProducts db (cartItemsOf db cart.id) with
            | none => exfalso; simp [checkoutCart, hc, hemp, hscan, hjoin] at h200
            | some joined =>
                have hfst := joinProducts_fst db _ joined hjoin
                refine ⟨{ id := freshOrderId, userId := userid,
                          totalAmount := checkoutTotal joined, status := "Pending",
                          items := joined.map (fun x =>
                            { productId := x.1.productId, quantity := x.1.quantity,
                              price := x.2.price }) }, ?_, ?_, ?_⟩
                · have horders := stockDecrement_orders (cartItemsOf db cart.id)
                  simp [checkoutCart, hc, hemp, hscan, hjoin, horders]
                · rw [← hfst, List.map_map, List.map_map]
                  rfl
                · rw [← hfst, List.map_map, List.map_map]
                  rfl
  · intro userId totalAmount status items freshOrderId h201
    by_cases hval : userId = "" ∨ totalAmount = 0 ∨ items = []
    · exfalso; simp [createOrder, hval] at h201
    · cases hu : db.users.find? (fun u => u.id == userId) with
      | none => exfalso; simp [createOrder, hval, hu] at h201
      | some u =>
          cases hne : (productsIn db (items.map (fun i => i.productId))).isEmpty with
          | true => exfalso; simp [createOrder, hval, hu, hne] at h201
          | false =>
              constructor
              · simp [createOrder, hval, hu, hne]
              · simp [createOrder, hval, hu, hne, groupSellerEmails_keys]

/-- C2 counterexample: a concrete `createOrder` over items of two distinct
sellers succeeds and appends exactly one order (not two), containing both
sellers' items. -/
theorem createOrder_single_order_counterexample :
    (distinctSellerIds dbOrder [⟨"p1", 1, 5⟩, ⟨"p2", 1, 7⟩]).length = 2 ∧
    (createOrder dbOrder "u1" 12 none [⟨"p1", 1, 5⟩, ⟨"p2", 1, 7⟩] "o2").status = 201 ∧
    (createOrder dbOrder "u1" 12 none [⟨"p1", 1, 5⟩, ⟨"p2", 1, 7⟩] "o2").db.orders.length =
      dbOrder.orders.length + 1 ∧
    (createOrder dbOrder "u1" 12 none [⟨"p1", 1, 5⟩, ⟨"p2", 1, 7⟩] "o2").db.orders.length ≠
      dbOrder.orders.length + 2 := by
  decide

/-- C2 witness: on the two-seller state, checkout creates one order holding
both items, and `createOrder` notifies each seller email once. -/
theorem order_placement_single_order_witness :
    ((checkoutCart dbOrder "u1" "o1").status = 200 ∧
      ∃ o : Order, (checkoutCart dbOrder "u1" "o1").db.orders = dbOrder.orders ++ [o] ∧
        o.items.map (fun i => i.productId) =
          (cartItemsOf dbOrder "u1").map (fun it => it.productId) ∧
        o.items.map (fun i => i.quantity) =
          (cartItemsOf dbOrder "u1").map (fun it => it.quantity)) ∧
    ((createOrder dbOrder "u1" 12 none [⟨"p1", 1, 5⟩, ⟨"p2", 1, 7⟩] "o2").status = 201 ∧
      (createOrder dbOrder "u1" 12 none [⟨"p1", 1, 5⟩, ⟨"p2", 1, 7⟩] "o2").sellerRecipients =
        dedupKeepFirst (sellerEmailsOf dbOrder
          (productsIn dbOrder ["p1", "p2"]))) :=
  ⟨⟨by decide,
    (order_placement_single_order dbOrder).1 "u1" "o1" ⟨"u1", "u1", 0⟩ (by decide) (by decide)⟩,
   ⟨by decide,
    ((order_placement_single_order dbOrder).2 "u1" 12 none [⟨"p1", 1, 5⟩, ⟨"p2", 1, 7⟩] "o2"
      (by decide)).2⟩⟩

/-- C1 witness: a concrete understocked cart is rejected with 400 and the
state stays identical. -/
theorem checkoutCart_insufficient_stock_witness :
    (∃ it ∈ cartItemsOf dbStock "u1", ∃ p,
      findProduct dbStock it.productId = some p ∧ p.stock < it.quantity) ∧
    checkoutCart dbStock "u1" "o1" = { status := 400, orderId := none, db := dbStock } :=
  ⟨⟨⟨"i1", "u1", "p1", 2, 5⟩, by decide,
    ⟨"p1", "s1", "Shirt", "d", 5, none, 1, ProductStatus.PENDING⟩, by decide, by decide⟩,
   checkoutCart_insufficient_stock dbStock "u1" "o1" ⟨"u1", "u1", 10⟩ (by decide) (by decide)
     ⟨⟨"i1", "u1", "p1", 2, 5⟩, by decide,
      ⟨"p1", "s1", "Shirt", "d", 5, none, 1, ProductStatus.PENDING⟩, by decide, by decide⟩⟩

/-- C4: `addToCart` for a user with no cart creates the cart row and its
single item, but then re-fetches the cart by `id = userId` while the created
cart got the fresh uuid `"c1" ≠ "u1"` as its id; the re-fetch finds nothing
and the `cart.update({ where: { id: userId } })` throws P2025, so the
handler answers 500 instead of the claimed 200 with the cart. -/
theorem addToCart_no_cart_500 :
    addToCart emptyDB "p1" 1 5 "u1" "c1" "i1" =
      { status := 500,
        db := { emptyDB with
          carts := [⟨"c1", "u1", 0⟩],
          cartItems := [⟨"i1", "c1", "p1", 1, 5⟩] } } := by
  decide

/-- C10: on every joined cart whose products all satisfy
`price − discount ≥ 0.01` (discount read as 0 when absent), the discounted
total computed by `applyCartDiscount` equals the total computed by
`checkoutCart`, the sum over items of `(price − discount) × quantity`. -/
theorem applyDiscountTotal_eq_checkoutTotal (l : List (CartItems × Product))
    (h : ∀ x ∈ l, (1 / 100 : Rat) ≤ x.2.price - x.2.discount.getD 0) :
    applyDiscountTotal l = checkoutTotal l := by
  unfold applyDiscountTotal checkoutTotal
  suffices hgen : ∀ acc : Rat,
      l.foldl (fun sum x =>
        sum + max (1 / 100 : Rat) (jsNumOr x.2.price 0 - x.2.discount.getD 0) * x.1.quantity) acc =
      l.foldl (fun sum x =>
        sum + max (x.2.price - jsOptNumOr x.2.discount 0) 0 * x.1.quantity) acc by
    exact hgen 0
  induction l with
  | nil => intro acc; rfl
  | cons x rest ih =>
      intro acc
      have hx := h x (List.mem_cons_self x rest)
      have hrest : ∀ y ∈ rest, (1 / 100 : Rat) ≤ y.2.price - y.2.discount.getD 0 :=
        fun y hy => h y (List.mem_cons_of_mem x hy)
      simp only [List.foldl_cons]
      rw [jsNumOr_zero, jsOptNumOr_zero,
        max_eq_right hx, max_eq_left (le_trans (by norm_num) hx)]
      exact ih hrest _

/-- C10 witness: a concrete joined cart satisfying the precondition, on
which the two totals agree. -/
theorem applyDiscountTotal_eq_checkoutTotal_witness :
    (∀ x ∈ [((⟨"i1", "c1", "p1", 2, 5⟩ : CartItems),
             (⟨"p1", "s1", "Shirt", "d", 5, some 1, 10, ProductStatus.APPROVED⟩ : Product))],
       (1 / 100 : Rat) ≤ x.2.price - x.2.discount.getD 0) ∧
    applyDiscountTotal [((⟨"i1", "c1", "p1", 2, 5⟩ : CartItems),
        (⟨"p1", "s1", "Shirt", "d", 5, some 1, 10, ProductStatus.APPROVED⟩ : Product))] =
      checkoutTotal [((⟨"i1", "c1", "p1", 2, 5⟩ : CartItems),
        (⟨"p1", "s1", "Shirt", "d", 5, some 1, 10, ProductStatus.APPROVED⟩ : Product))] :=
  ⟨by intro x hx; simp only [List.mem_singleton] at hx; subst hx; norm_num,
   applyDiscountTotal_eq_checkoutTotal _
     (by intro x hx; simp only [List.mem_singleton] at hx; subst hx; norm_num)⟩

/-- C8: when the email of a valid `registerUser` body already belongs to an
existing user, the handler responds 400 and the state is unchanged: no user
row, refresh token or cookie is created. -/
theorem registerUser_existing_email (db : DB) (body : SignUpData)
    (hashed freshUserId freshTokenRowId refreshToken : String)
    (h : ∃ u ∈ db.users, u.email = body.email) :
    registerUser db (some body) hashed freshUserId freshTokenRowId refreshToken =
      { status := 400, cookie := none, db := db } := by
  obtain ⟨u, hu, he⟩ := h
  have hsome : (db.users.find? (fun v => v.email == body.email)).isSome := by
    rw [List.find?_isSome]
    exact ⟨u, hu, by simp [he]⟩
  obtain ⟨v, hv⟩ := Option.isSome_iff_exists.1 hsome
  simp only [registerUser, hv]

/-- C8 witness: registering `"a@b.com"` twice is rejected with 400 and the
database is untouched. -/
theorem registerUser_existing_email_witness :
    (∃ u ∈ [({ id := "u1", email := "a@b.com", name := "A", password := "h",
               role := Role.USER, isVerified := false } : User)], u.email = "a@b.com") ∧
    registerUser ⟨[{ id := "u1", email := "a@b.com", name := "A", password := "h",
                     role := Role.USER, isVerified := false }], [], [], [], [], [], [], [], [], [], []⟩
        (some ⟨"a@b.com", "Passw0rd!", "A"⟩) "h2" "u2" "t1" "r1" =
      { status := 400, cookie := none,
        db := ⟨[{ id := "u1", email := "a@b.com", name := "A", password := "h",
                  role := Role.USER, isVerified := false }], [], [], [], [], [], [], [], [], [], []⟩ } :=
  ⟨⟨_, List.mem_singleton.2 rfl, rfl⟩,
   registerUser_existing_email _ _ _ _ _ _ ⟨_, List.mem_singleton.2 rfl, rfl⟩⟩

end Backend
